import Mathlib

/-!
Shallow embedding of the COM wrapper library `dmitigr::wincom`
(`src/object.hpp`, `src/exceptions.hpp`, `src/wmi.hpp`).

External COM resources are identified by `Nat` pointer values; a null
pointer is `Option.none`.  Every wrapper operation is embedded as a pure
function that returns, besides its result, the list of calls it issues
into the external COM runtime (`Event`): `AddRef`, `Release`, a successful
`QueryInterface` (which mints one new reference), a successful
`FindConnectionPoint` (likewise), `Advise` and `Unadvise`.  C++ exceptions
are embedded as `Except ComError`.
-/

namespace Wincom

/-- A call issued into the external COM runtime.  `qiOk p` is a successful
`QueryInterface` that handed out interface pointer `p` (minting one
reference to it); `fcpOk p` is a successful `FindConnectionPoint` handing
out connection-point pointer `p` (minting one reference). -/
inductive Event where
  | addRef (p : Nat)
  | release (p : Nat)
  | qiOk (p : Nat)
  | fcpOk (p : Nat)
  | advise (token : Nat)
  | unadvise (token : Nat)
deriving DecidableEq, Repr

/-- Effect of one event on the external reference count of pointer `p`. -/
def Event.delta (p : Nat) : Event → Int
  | .addRef q => if q = p then 1 else 0
  | .release q => if q = p then -1 else 0
  | .qiOk q => if q = p then 1 else 0
  | .fcpOk q => if q = p then 1 else 0
  | .advise _ => 0
  | .unadvise _ => 0

/-- Net change of the external reference count of `p` over a trace. -/
def netCount (p : Nat) (es : List Event) : Int :=
  (es.map (Event.delta p)).sum

/-- Number of `Release` calls on `p` in a trace. -/
def countReleases (p : Nat) (es : List Event) : Nat :=
  (es.filter (· = Event.release p)).length

/-- Number of `AddRef` calls on `p` in a trace. -/
def countAddRefs (p : Nat) (es : List Event) : Nat :=
  (es.filter (· = Event.addRef p)).length

/-- The C++ exceptions thrown by the wrappers (`std::logic_error`,
`std::invalid_argument`, `std::runtime_error`, `std::bad_alloc`, and
`dmitigr::wincom::Win_error`, which carries the numeric status code). -/
inductive ComError where
  | logic_error (what : String)
  | invalid_argument (what : String)
  | runtime_error (what : String)
  | bad_alloc
  | win_error (what : String) (code : Int)
deriving DecidableEq, Repr

/-- Accessor `Win_error::code()`, where available (`src/exceptions.hpp:37`). -/
def ComError.code : ComError → Option Int
  | .win_error _ c => some c
  | _ => none

/-- Constructing `Win_error{message, code}` appends ` (error <code>)` to the message
(`src/exceptions.hpp:31`). -/
def mkWinError (message : String) (code : Int) : ComError :=
  .win_error (message ++ " (error " ++ toString code ++ ")") code

/-- Predicate `FAILED(hr)`: the severity bit of an `HRESULT` is set, i.e. the signed
32-bit value is negative. -/
def FAILED (hr : Int) : Bool := hr < 0

/-- Constant `E_OUTOFMEMORY`, i.e. `0x8007000E` as a signed 32-bit value. -/
def E_OUTOFMEMORY : Int := -2147024882

/-- Helper `check` from `src/exceptions.hpp:46`: throws `std::logic_error` when
the condition is false. -/
def check (condition : Bool) (message : String) : Except ComError Unit :=
  if condition then .ok () else .error (.logic_error message)

/-- Embedding of `throw_if_error` from `src/exceptions.hpp:53`: on a failed `HRESULT`
throws `std::bad_alloc` for `E_OUTOFMEMORY` and `Win_error` otherwise. -/
def throw_if_error (err : Int) (message : String) : Except ComError Unit :=
  if FAILED err then
    if err = E_OUTOFMEMORY then .error .bad_alloc
    else .error (mkWinError message err)
  else .ok ()

/-! ## `Unknown_api` (`src/object.hpp:42`) -/

/-- The handle state of `Unknown_api<Derived, Api>`: the single pointer
member `api_`, null in the empty state (`src/object.hpp:138`). -/
structure Unknown_api where
  api_ : Option Nat
deriving DecidableEq, Repr

/-- Constructor `explicit Unknown_api(Api* api)` (`src/object.hpp:82`): stores the
caller-supplied pointer unchecked and issues no COM call. -/
def Unknown_api.fromRaw (p : Option Nat) : Unknown_api × List Event :=
  (⟨p⟩, [])

/-- Destructor `~Unknown_api` (`src/object.hpp:72`): releases the held pointer if
non-null, otherwise does nothing.  Total (the destructor cannot throw). -/
def Unknown_api.destroy (h : Unknown_api) : List Event :=
  match h.api_ with
  | some p => [.release p]
  | none => []

/-- Copy constructor (`src/object.hpp:92`): copies the pointer and calls
`AddRef` when it is non-null. -/
def Unknown_api.copyCtor (rhs : Unknown_api) : Unknown_api × List Event :=
  (⟨rhs.api_⟩, match rhs.api_ with | some p => [.addRef p] | none => [])

/-- Move constructor (`src/object.hpp:86`): takes the pointer and nulls the
source; the pair is (new handle, moved-from source). -/
def Unknown_api.moveCtor (rhs : Unknown_api) :
    (Unknown_api × Unknown_api) × List Event :=
  ((⟨rhs.api_⟩, ⟨none⟩), [])

/-- Member `swap` (`src/object.hpp:113`): exchanges the two pointers. -/
def Unknown_api.swap (a b : Unknown_api) : Unknown_api × Unknown_api :=
  (⟨b.api_⟩, ⟨a.api_⟩)

/-- Move assignment `operator=(Unknown_api&&)` (`src/object.hpp:99`) for
distinct `this` and `rhs`: `Unknown_api tmp{std::move(rhs)}; swap(tmp);`
then `tmp` (holding the old value of `this`) is destroyed.  Returns
(new `this`, new `rhs`) and the trace. -/
def Unknown_api.moveAssign (this rhs : Unknown_api) :
    (Unknown_api × Unknown_api) × List Event :=
  let m := Unknown_api.moveCtor rhs
  let s := Unknown_api.swap this m.1.1
  ((s.1, m.1.2), m.2 ++ s.2.destroy)

/-- Copy assignment `operator=(const Unknown_api&)` (`src/object.hpp:106`)
for distinct `this` and `rhs`: `Unknown_api tmp{rhs}; swap(tmp);` then
`tmp` (holding the old value of `this`) is destroyed. -/
def Unknown_api.copyAssign (this rhs : Unknown_api) :
    Unknown_api × List Event :=
  let c := Unknown_api.copyCtor rhs
  let s := Unknown_api.swap this c.1
  (s.1, c.2 ++ s.2.destroy)

/-- Copy self-assignment `a = a`: copy assignment where `this` and `rhs` alias the same object.
`tmp` is copy-constructed from `a` (one `AddRef`), swapped with `a`, and
destroyed (one `Release` of the same pointer). -/
def Unknown_api.copySelfAssign (a : Unknown_api) :
    Unknown_api × List Event :=
  let c := Unknown_api.copyCtor a
  let s := Unknown_api.swap a c.1
  (s.1, c.2 ++ s.2.destroy)

/-- Move self-assignment `a = std::move(a)`: move assignment where `this` and `rhs` alias the
same object.  `tmp` steals `a`'s pointer and nulls `a`; the swap then puts
the pointer back into `a`, and `tmp` (now empty) is destroyed. -/
def Unknown_api.moveSelfAssign (a : Unknown_api) :
    Unknown_api × List Event :=
  let m := Unknown_api.moveCtor a
  let s := Unknown_api.swap m.1.2 m.1.1
  (s.1, m.2 ++ s.2.destroy)

/-- Accessor `Unknown_api::api()` (`src/object.hpp:119`): `check`s the pointer
(throwing `std::logic_error` on an empty handle) before dereferencing.
`derivedName` stands for `typeid(Derived).name()`. -/
def Unknown_api.api (h : Unknown_api) (derivedName : String) :
    Except ComError Nat :=
  match check h.api_.isSome
      ("invalid " ++ derivedName ++ " instance used") with
  | .error e => .error e
  | .ok _ =>
    match h.api_ with
    | some p => .ok p
    | none => .error (.logic_error
        ("invalid " ++ derivedName ++ " instance used"))

/-- The external resource seen by `Unknown_api::query`: whether it
implements the requested interface, and the interface pointer its
`QueryInterface` hands out when it does. -/
structure Resource where
  supports : Bool
  iface : Nat
deriving DecidableEq, Repr

/-- Call `U::QueryInterface(&api)`: when the interface is supported, hands out
the interface pointer, minting one new reference to it; otherwise leaves
the out-pointer null. -/
def QueryInterface (r : Resource) : Option Nat × List Event :=
  if r.supports then (some r.iface, [.qiOk r.iface]) else (none, [])

/-- The static error message of `Unknown_api::query`
(`src/object.hpp:55`), with `typeid` names abstracted as strings. -/
def queryMsg (apiName uName derivedName : String) : String :=
  "cannot obtain interface " ++ apiName ++ " from " ++ uName
    ++ " to make " ++ derivedName

/-- Static member `Unknown_api::query(U* unknown)` (`src/object.hpp:50`): throws
`std::invalid_argument` on a null input, calls `QueryInterface`, throws
`std::runtime_error` if no interface came back, and otherwise wraps the
received pointer via the raw constructor (no extra `AddRef`). -/
def Unknown_api.query (apiName uName derivedName : String)
    (unknown : Option Resource) :
    Except ComError (Unknown_api × List Event) :=
  let msg := queryMsg apiName uName derivedName
  match unknown with
  | none => .error (.invalid_argument (msg ++ ": null input pointer"))
  | some r =>
    let q := QueryInterface r
    match q.1 with
    | none => .error (.runtime_error msg)
    | some p => .ok ((Unknown_api.fromRaw (some p)).1, q.2)

/-! ## `Ptr` (`src/object.hpp:145`) -/

/-- Accessor `Ptr<A>::get()` (`src/object.hpp:151`): declared `noexcept`, returns
the raw member pointer unchecked — null for an empty handle. -/
def Ptr.get (h : Unknown_api) : Option Nat :=
  h.api_

/-- Accessor `Ptr<A>::operator->()` (`src/object.hpp:156`): returns `get()`. -/
def Ptr.arrow (h : Unknown_api) : Option Nat :=
  Ptr.get h

/-! ## `Basic_com_object` (`src/object.hpp:172`) -/

/-- The handle state of `Basic_com_object<Object, ObjectInterface>`
(`src/object.hpp:246`). -/
structure Basic_com_object where
  api_ : Option Nat
deriving DecidableEq, Repr

/-- Constructor `explicit Basic_com_object(ObjectInterface* api)`
(`src/object.hpp:190`): stores the caller-supplied pointer unchecked. -/
def Basic_com_object.fromRaw (p : Option Nat) :
    Basic_com_object × List Event :=
  (⟨p⟩, [])

/-- Destructor `~Basic_com_object` (`src/object.hpp:178`): releases if non-null. -/
def Basic_com_object.destroy (h : Basic_com_object) : List Event :=
  match h.api_ with
  | some p => [.release p]
  | none => []

/-- Constant `S_OK`. -/
def S_OK : Int := 0

/-- Constructor `Basic_com_object(const DWORD, IUnknown*)`
(`src/object.hpp:194`): calls `CoCreateInstance`, whose outcome is
modeled by the status it returns and the instance pointer it stores.
Any status other than `S_OK` is surfaced as `Win_error` — including
`E_OUTOFMEMORY`, which this path does not map to `std::bad_alloc` — and
an `S_OK` status with a null instance throws `std::logic_error`. -/
def Basic_com_object.create (err : Int) (instancePtr : Option Nat) :
    Except ComError Basic_com_object :=
  if err ≠ S_OK then .error (mkWinError "cannot create COM object" err)
  else
    match instancePtr with
    | none => .error (.logic_error "invalid COM instance created")
    | some p => .ok ⟨some p⟩

/-- Accessor `Basic_com_object::api()` (`src/object.hpp:227`): `check`s the pointer
(throwing `std::logic_error` on an empty handle) before dereferencing.
`name` stands for `typeid(Basic_com_object).name()`. -/
def Basic_com_object.api (h : Basic_com_object) (name : String) :
    Except ComError Nat :=
  match check h.api_.isSome ("invalid " ++ name ++ " instance used") with
  | .error e => .error e
  | .ok _ =>
    match h.api_ with
    | some p => .ok p
    | none => .error (.logic_error ("invalid " ++ name ++ " instance used"))

/-! ## `Advise_sink_connection` (`src/object.hpp:333`) -/

/-- Outcome of the three external acquisition calls made by the
`Advise_sink_connection` constructor: the container pointer handed out
when `QueryInterface` returns `S_OK` (`none` otherwise), the connection
point handed out when `FindConnectionPoint` returns `S_OK`, and the token
returned when `Advise` returns `S_OK`. -/
structure ConnectionEnv where
  qiContainer : Option Nat
  findPoint : Option Nat
  adviseToken : Option Nat
deriving DecidableEq, Repr

/-- The members of `Advise_sink_connection` (`src/object.hpp:370`):
whether the owned sink is non-null, the stored token, and the two raw
interface pointers. -/
structure Advise_sink_connection where
  sink_ : Bool
  sink_connection_token_ : Nat
  point_container_ : Option Nat
  point_ : Option Nat
deriving DecidableEq, Repr

/-- The `Advise_sink_connection` constructor (`src/object.hpp:350`),
following C++ semantics: when the constructor body throws, the partially
constructed object's destructor does NOT run, so the trace of a failed
construction contains exactly the external calls issued up to the failure
and nothing else (in particular no `Release` of pointers already
obtained).  Returns the thrown exception or the constructed object,
together with the trace. -/
def Advise_sink_connection.ctor (sinkValid : Bool) (env : ConnectionEnv) :
    Except ComError Advise_sink_connection × List Event :=
  if !sinkValid then
    (.error (.invalid_argument "invalid AdviseSink instance"), [])
  else
    match env.qiContainer with
    | none =>
      (.error (.runtime_error "cannot query interface of COM object"), [])
    | some container =>
      match env.findPoint with
      | none =>
        (.error (.runtime_error
            "cannot find sink connection point of COM object"),
         [.qiOk container])
      | some point =>
        match env.adviseToken with
        | none =>
          (.error (.runtime_error "cannot get sink connection token"),
           [.qiOk container, .fcpOk point])
        | some token =>
          (.ok ⟨true, token, some container, some point⟩,
           [.qiOk container, .fcpOk point, .advise token])

/-- Destructor `~Advise_sink_connection` (`src/object.hpp:336`): if the connection
point is held, `Unadvise` with the stored token then `Release` it and null
it; then, if the container is held, `Release` and null it.  Returns the
cleared state and the trace. -/
def Advise_sink_connection.dtor (c : Advise_sink_connection) :
    Advise_sink_connection × List Event :=
  let e1 : List Event :=
    match c.point_ with
    | some pt => [.unadvise c.sink_connection_token_, .release pt]
    | none => []
  let e2 : List Event :=
    match c.point_container_ with
    | some pc => [.release pc]
    | none => []
  (⟨c.sink_, c.sink_connection_token_, none, none⟩, e1 ++ e2)

/-! ## `wmi::ClassObject::Value` (`src/wmi.hpp:40`) -/

/-- CIM type tags from `Wbemidl.h`, by their numeric values. -/
def CIM_SINT16 : Nat := 2
def CIM_SINT32 : Nat := 3
def CIM_STRING : Nat := 8
def CIM_BOOLEAN : Nat := 11
def CIM_SINT8 : Nat := 16
def CIM_UINT8 : Nat := 17
def CIM_UINT16 : Nat := 18
def CIM_UINT32 : Nat := 19
def CIM_SINT64 : Nat := 20
def CIM_UINT64 : Nat := 21
def CIM_DATETIME : Nat := 101

/-- Constant `VARIANT_TRUE` (`0xFFFF` as a signed 16-bit `VARIANT_BOOL`). -/
def VARIANT_TRUE : Int := -1

/-- The union members of `VARIANT` that the `Value` accessors read.  Each
accessor reads one fixed member; `date` (a `DATE`, i.e. a `double`) is
carried as an opaque payload identifier since no arithmetic is ever
performed on it. -/
structure VARIANT where
  cVal : Int
  bVal : Nat
  iVal : Int
  uiVal : Nat
  intVal : Int
  uintVal : Nat
  llVal : Int
  ullVal : Nat
  boolVal : Int
  bstrVal : String
  date : Nat
deriving DecidableEq, Repr

namespace wmi

/-- State of `ClassObject::Value` (`src/wmi.hpp:40`): the `VARIANT` payload, the
CIM type discriminator, and the flavor bits. -/
structure Value where
  data : VARIANT
  type : Nat
  flavor : Int
deriving DecidableEq, Repr

/-- Accessor `Value::as_str` (`src/wmi.hpp:46`): checks the tag against
`CIM_STRING`, otherwise throws `std::logic_error`. -/
def Value.as_str (v : Value) : Except ComError String :=
  if v.type ≠ CIM_STRING then
    .error (.logic_error "cannot get value of VARIANT as string")
  else .ok v.data.bstrVal

/-- Accessor `Value::as_string` (`src/wmi.hpp:54`). -/
def Value.as_string (v : Value) : Except ComError String :=
  v.as_str

/-- Accessor `Value::as_wstring` (`src/wmi.hpp:59`). -/
def Value.as_wstring (v : Value) : Except ComError String :=
  v.as_str

/-- Accessor `Value::as_int8` (`src/wmi.hpp:64`). -/
def Value.as_int8 (v : Value) : Except ComError Int :=
  if v.type ≠ CIM_SINT8 then
    .error (.logic_error "cannot get value of VARIANT as int8")
  else .ok v.data.cVal

/-- Accessor `Value::as_uint8` (`src/wmi.hpp:71`). -/
def Value.as_uint8 (v : Value) : Except ComError Nat :=
  if v.type ≠ CIM_UINT8 then
    .error (.logic_error "cannot get value of VARIANT as uint8")
  else .ok v.data.bVal

/-- Accessor `Value::as_int16` (`src/wmi.hpp:78`). -/
def Value.as_int16 (v : Value) : Except ComError Int :=
  if v.type ≠ CIM_SINT16 then
    .error (.logic_error "cannot get value of VARIANT as int16")
  else .ok v.data.iVal

/-- Accessor `Value::as_uint16` (`src/wmi.hpp:85`). -/
def Value.as_uint16 (v : Value) : Except ComError Nat :=
  if v.type ≠ CIM_UINT16 then
    .error (.logic_error "cannot get value of VARIANT as uint16")
  else .ok v.data.uiVal

/-- Accessor `Value::as_int32` (`src/wmi.hpp:92`). -/
def Value.as_int32 (v : Value) : Except ComError Int :=
  if v.type ≠ CIM_SINT32 then
    .error (.logic_error "cannot get value of VARIANT as int32")
  else .ok v.data.intVal

/-- Accessor `Value::as_uint32` (`src/wmi.hpp:99`). -/
def Value.as_uint32 (v : Value) : Except ComError Nat :=
  if v.type ≠ CIM_UINT32 then
    .error (.logic_error "cannot get value of VARIANT as uint32")
  else .ok v.data.uintVal

/-- Accessor `Value::as_int64` (`src/wmi.hpp:106`). -/
def Value.as_int64 (v : Value) : Except ComError Int :=
  if v.type ≠ CIM_SINT64 then
    .error (.logic_error "cannot get value of VARIANT as int64")
  else .ok v.data.llVal

/-- Accessor `Value::as_uint64` (`src/wmi.hpp:113`). -/
def Value.as_uint64 (v : Value) : Except ComError Nat :=
  if v.type ≠ CIM_UINT64 then
    .error (.logic_error "cannot get value of VARIANT as uint64")
  else .ok v.data.ullVal

/-- Accessor `Value::as_bool` (`src/wmi.hpp:120`): decodes `boolVal ==
VARIANT_TRUE`. -/
def Value.as_bool (v : Value) : Except ComError Bool :=
  if v.type ≠ CIM_BOOLEAN then
    .error (.logic_error "cannot get value of VARIANT as bool")
  else .ok (v.data.boolVal == VARIANT_TRUE)

/-- Accessor `Value::as_date` (`src/wmi.hpp:127`). -/
def Value.as_date (v : Value) : Except ComError Nat :=
  if v.type ≠ CIM_DATETIME then
    .error (.logic_error "cannot get value of VARIANT as DATE")
  else .ok v.data.date

end wmi

/-! ## Derived scenarios and counting helpers -/

/-- Number of `Advise` calls in a trace. -/
def countAdvises (es : List Event) : Nat :=
  (es.filter (fun e => match e with | .advise _ => true | _ => false)).length

/-- Number of `Unadvise` calls in a trace. -/
def countUnadvises (es : List Event) : Nat :=
  (es.filter (fun e => match e with | .unadvise _ => true | _ => false)).length

/-- Scenario step: make `k` copies of a handle via the copy constructor
(`src/object.hpp:92`), collecting the copies and the trace. -/
def Unknown_api.copies (h : Unknown_api) : Nat → List Unknown_api × List Event
  | 0 => ([], [])
  | k + 1 =>
    let c := Unknown_api.copyCtor h
    let rest := Unknown_api.copies h k
    (c.1 :: rest.1, c.2 ++ rest.2)

/-- Scenario step: run the destructor (`src/object.hpp:72`) of every
handle in the list, collecting the trace. -/
def destroyAll (hs : List Unknown_api) : List Event :=
  (hs.map Unknown_api.destroy).flatten

/-! ## Helper lemmas -/

lemma netCount_nil (p : Nat) : netCount p [] = 0 := rfl

lemma netCount_cons (p : Nat) (e : Event) (es : List Event) :
    netCount p (e :: es) = Event.delta p e + netCount p es := by
  simp [netCount]

lemma netCount_append (p : Nat) (a b : List Event) :
    netCount p (a ++ b) = netCount p a + netCount p b := by
  simp [netCount]

lemma copies_spec (p k : Nat) :
    Unknown_api.copies ⟨some p⟩ k =
      (List.replicate k ⟨some p⟩, List.replicate k (Event.addRef p)) := by
  induction k with
  | zero => rfl
  | succ n ih =>
    simp [Unknown_api.copies, Unknown_api.copyCtor, ih, List.replicate_succ]

lemma destroyAll_cons (h : Unknown_api) (hs : List Unknown_api) :
    destroyAll (h :: hs) = h.destroy ++ destroyAll hs := by
  simp [destroyAll]

lemma destroyAll_replicate (p k : Nat) :
    destroyAll (List.replicate k ⟨some p⟩) =
      List.replicate k (Event.release p) := by
  induction k with
  | zero => rfl
  | succ n ih =>
    simp [List.replicate_succ, destroyAll_cons, ih, Unknown_api.destroy]

lemma countAddRefs_replicate_addRef (p k : Nat) :
    countAddRefs p (List.replicate k (Event.addRef p)) = k := by
  induction k with
  | zero => rfl
  | succ n ih =>
    simp only [List.replicate_succ, countAddRefs, List.filter_cons] at ih ⊢
    simp_all

lemma countReleases_replicate_release (p k : Nat) :
    countReleases p (List.replicate k (Event.release p)) = k := by
  induction k with
  | zero => rfl
  | succ n ih =>
    simp only [List.replicate_succ, countReleases, List.filter_cons] at ih ⊢
    simp_all

lemma netCount_replicate_addRef (p k : Nat) :
    netCount p (List.replicate k (Event.addRef p)) = k := by
  induction k with
  | zero => rfl
  | succ n ih =>
    rw [List.replicate_succ, netCount_cons, ih]
    simp [Event.delta]
    omega

lemma netCount_replicate_release (p k : Nat) :
    netCount p (List.replicate k (Event.release p)) = -(k : Int) := by
  induction k with
  | zero => rfl
  | succ n ih =>
    rw [List.replicate_succ, netCount_cons, ih]
    simp [Event.delta]

/-! ## Claims -/

/-- Claim C1 (confirmed).  Reference-count accounting for `Unknown_api`:
a handle over non-null pointer `p` owns one reference (minted here by the
external call `Event.qiOk p` at the head of the trace); each of `k`
further copies issues exactly one `AddRef` (`src/object.hpp:92`);
destroying all `k + 1` handles issues exactly `k + 1` `Release` calls
(`src/object.hpp:72`); the net effect of the whole trace on the external
reference count of `p` is zero, returning it to the pre-test baseline.
Destruction of a non-empty handle issues exactly one `Release` and, being
a total function in this embedding (mirroring the throw-free destructor
body), never throws. -/
theorem refcount_accounting_C1 (p k : Nat) :
    (Unknown_api.copyCtor ⟨some p⟩).2 = [Event.addRef p] ∧
    countAddRefs p (Unknown_api.copies ⟨some p⟩ k).2 = k ∧
    countReleases p
      (destroyAll (⟨some p⟩ :: (Unknown_api.copies ⟨some p⟩ k).1)) =
        k + 1 ∧
    netCount p (Event.qiOk p ::
      ((Unknown_api.copies ⟨some p⟩ k).2 ++
        destroyAll (⟨some p⟩ :: (Unknown_api.copies ⟨some p⟩ k).1))) = 0 ∧
    Unknown_api.destroy ⟨some p⟩ = [Event.release p] := by
  have hc := copies_spec p k
  have hd : destroyAll (⟨some p⟩ :: (Unknown_api.copies ⟨some p⟩ k).1) =
      List.replicate (k + 1) (Event.release p) := by
    rw [hc, destroyAll_cons]
    show [Event.release p] ++ _ = _
    rw [destroyAll_replicate, List.replicate_succ]
    rfl
  refine ⟨rfl, ?_, ?_, ?_, rfl⟩
  · rw [hc]
    exact countAddRefs_replicate_addRef p k
  · rw [hd]
    exact countReleases_replicate_release p (k + 1)
  · rw [netCount_cons, netCount_append, hd, hc, netCount_replicate_release]
    show Event.delta p (Event.qiOk p) +
      (netCount p (List.replicate k (Event.addRef p)) + _) = 0
    rw [netCount_replicate_addRef]
    simp [Event.delta]

/-- Claim C3 counterexample (corrected).  `Ptr<A>::get()` and
`Ptr<A>::operator->()` (`src/object.hpp:151` and `src/object.hpp:156`)
are `noexcept` and perform no validity check: invoked on an empty handle
they return the null pointer normally instead of failing with a
precondition-violation, refuting the claim that *every* public accessor
of the handle wrappers fails on an empty handle. -/
theorem ptr_get_unchecked_C3_counterexample :
    Ptr.get (Unknown_api.mk none) = none ∧
    Ptr.arrow (Unknown_api.mk none) = none :=
  ⟨rfl, rfl⟩

/-- Claim C3 as amended (proved).  `Unknown_api::api`
(`src/object.hpp:119`) and `Basic_com_object::api` (`src/object.hpp:227`)
fail with a thrown `std::logic_error` on an empty handle before any call
into the underlying resource, and return the resource on a non-empty
handle; `Ptr::get` and `Ptr::operator->`, however, perform no check and
return the raw — possibly null — pointer. -/
theorem empty_handle_check_C3 (name : String) (p : Nat) :
    Unknown_api.api (Unknown_api.mk none) name =
      .error (.logic_error ("invalid " ++ name ++ " instance used")) ∧
    Basic_com_object.api (Basic_com_object.mk none) name =
      .error (.logic_error ("invalid " ++ name ++ " instance used")) ∧
    Unknown_api.api (Unknown_api.mk (some p)) name = .ok p ∧
    Basic_com_object.api (Basic_com_object.mk (some p)) name = .ok p ∧
    Ptr.get (Unknown_api.mk none) = none ∧
    Ptr.arrow (Unknown_api.mk none) = none ∧
    Ptr.get (Unknown_api.mk (some p)) = some p :=
  ⟨rfl, rfl, rfl, rfl, rfl, rfl, rfl⟩

/-- Claim C4 (confirmed).  `Unknown_api::query` (`src/object.hpp:50`):
a null source pointer fails with `std::invalid_argument`; a non-null
source that does not implement the requested interface fails with
`std::runtime_error`; on success the returned handle owns exactly the one
reference minted by the `QueryInterface` call itself — the trace is the
single event `qiOk`, with net reference-count effect `+1` and zero extra
`AddRef` calls. -/
theorem query_C4 (apiName uName derivedName : String) (iface : Nat) :
    Unknown_api.query apiName uName derivedName none =
      .error (.invalid_argument
        (queryMsg apiName uName derivedName ++ ": null input pointer")) ∧
    Unknown_api.query apiName uName derivedName (some ⟨false, iface⟩) =
      .error (.runtime_error (queryMsg apiName uName derivedName)) ∧
    Unknown_api.query apiName uName derivedName (some ⟨true, iface⟩) =
      .ok (⟨some iface⟩, [Event.qiOk iface]) ∧
    netCount iface [Event.qiOk iface] = 1 ∧
    countAddRefs iface [Event.qiOk iface] = 0 := by
  refine ⟨rfl, ?_, ?_, ?_, ?_⟩
  · simp [Unknown_api.query, QueryInterface]
  · simp [Unknown_api.query, QueryInterface, Unknown_api.fromRaw]
  · simp [netCount, Event.delta]
  · simp [countAddRefs]

/-- Claim C5 counterexample (corrected).  The raw-pointer constructors
`Unknown_api(Api*)` (`src/object.hpp:82`) and
`Basic_com_object(ObjectInterface*)` (`src/object.hpp:190`) perform no
null check: constructing from a null raw reference does not fail with a
precondition-violation — it succeeds and yields an empty handle, whose
destruction issues no `Release`. -/
theorem fromRaw_null_C5_counterexample :
    (Unknown_api.fromRaw none).1 = Unknown_api.mk none ∧
    (Unknown_api.fromRaw none).2 = [] ∧
    Unknown_api.destroy (Unknown_api.fromRaw none).1 = [] ∧
    (Basic_com_object.fromRaw none).1 = Basic_com_object.mk none ∧
    (Basic_com_object.fromRaw none).2 = [] :=
  ⟨rfl, rfl, rfl, rfl, rfl⟩

/-- Claim C5 as amended (proved).  Constructing from a non-null raw
reference takes ownership without incrementing the count (the
construction issues no COM call), and construction followed immediately
by destruction issues exactly one `Release`; constructing from a null raw
reference succeeds without any check, yielding an empty handle whose
destruction issues nothing.  This holds for both `Unknown_api` and
`Basic_com_object`. -/
theorem fromRaw_C5 (p : Nat) :
    (Unknown_api.fromRaw (some p)).1 = Unknown_api.mk (some p) ∧
    (Unknown_api.fromRaw (some p)).2 = [] ∧
    ((Unknown_api.fromRaw (some p)).2 ++
      Unknown_api.destroy (Unknown_api.fromRaw (some p)).1) =
        [Event.release p] ∧
    countReleases p ((Unknown_api.fromRaw (some p)).2 ++
      Unknown_api.destroy (Unknown_api.fromRaw (some p)).1) = 1 ∧
    (Unknown_api.fromRaw none).1.api_ = none ∧
    Unknown_api.destroy (Unknown_api.fromRaw none).1 = [] ∧
    (Basic_com_object.fromRaw (some p)).2 = [] ∧
    Basic_com_object.destroy (Basic_com_object.fromRaw (some p)).1 =
      [Event.release p] := by
  refine ⟨rfl, rfl, rfl, ?_, rfl, rfl, rfl, rfl⟩
  simp [countReleases, Unknown_api.fromRaw, Unknown_api.destroy]

/-- Claim C8 counterexample (corrected).  Move assignment
(`src/object.hpp:99`) is implemented as move-construct-and-swap through a
temporary, and the temporary's destruction releases the pointer the
target previously held: move-assigning a handle on pointer `1` into
another handle on pointer `1` issues one `Release` on that very resource,
refuting the claim that no reference-count operation is issued by move
assignment. -/
theorem move_assign_release_C8_counterexample :
    (Unknown_api.moveAssign (Unknown_api.mk (some 1))
      (Unknown_api.mk (some 1))).2 = [Event.release 1] ∧
    countReleases 1 (Unknown_api.moveAssign (Unknown_api.mk (some 1))
      (Unknown_api.mk (some 1))).2 = 1 :=
  ⟨rfl, rfl⟩

/-- Claim C8 as amended (proved).  Move construction
(`src/object.hpp:86`) transfers the pointer, nulls the source and issues
no reference-count operation at all.  Move assignment
(`src/object.hpp:99`) transfers the pointer and nulls the source, and the
only reference-count operations it issues are those of destructing the
target's previous value: exactly one `Release` of the target's old
non-null pointer, and none at all when the target was empty. -/
theorem move_semantics_C8 (h r : Unknown_api) :
    (Unknown_api.moveCtor r).1.1 = Unknown_api.mk r.api_ ∧
    (Unknown_api.moveCtor r).1.2 = Unknown_api.mk none ∧
    (Unknown_api.moveCtor r).2 = [] ∧
    (Unknown_api.moveAssign h r).1.1 = Unknown_api.mk r.api_ ∧
    (Unknown_api.moveAssign h r).1.2 = Unknown_api.mk none ∧
    (Unknown_api.moveAssign h r).2 = Unknown_api.destroy h ∧
    (Unknown_api.moveAssign (Unknown_api.mk none) r).2 = [] :=
  ⟨rfl, rfl, rfl, rfl, rfl, rfl, rfl⟩

/-- Claim C10 (confirmed).  Self-assignment safety: both copy- and
move-assigning a handle to itself (`src/object.hpp:99` and
`src/object.hpp:106`, implemented by copy/move-and-swap through a
temporary) leave the handle owning the same resource, with zero net
change to the external reference count of every pointer — the aliased
copy case issues a matched `AddRef`/`Release` pair, the aliased move case
issues nothing. -/
theorem self_assignment_C10 (a : Unknown_api) :
    (Unknown_api.copySelfAssign a).1 = a ∧
    (Unknown_api.moveSelfAssign a).1 = a ∧
    (∀ q, netCount q (Unknown_api.copySelfAssign a).2 = 0) ∧
    (∀ q, netCount q (Unknown_api.moveSelfAssign a).2 = 0) ∧
    (Unknown_api.moveSelfAssign a).2 = [] ∧
    (∀ p, (Unknown_api.copySelfAssign (Unknown_api.mk (some p))).2 =
      [Event.addRef p, Event.release p]) ∧
    (Unknown_api.copySelfAssign (Unknown_api.mk none)).2 = [] := by
  obtain ⟨_ | p⟩ := a
  · exact ⟨rfl, rfl, fun q => rfl, fun q => rfl, rfl, fun p => rfl, rfl⟩
  · refine ⟨rfl, rfl, ?_, fun q => rfl, rfl, fun p => rfl, rfl⟩
    intro q
    rcases eq_or_ne p q with hpq | hpq <;>
      simp [Unknown_api.copySelfAssign, Unknown_api.copyCtor,
        Unknown_api.swap, Unknown_api.destroy, netCount, Event.delta, hpq]

/-- Claim C2 (code bug).  When `FindConnectionPoint` fails after
`QueryInterface` already handed out the connection-point container
(`src/object.hpp:350`), construction aborts with the descriptive failure
and no `Advise` call has taken effect, but the container reference is
NOT released before the failure is surfaced: the constructor throws from
its body, so the destructor (`src/object.hpp:336`) never runs for the
partially constructed object and the raw member pointer is simply
discarded.  The trace of the failed construction is exactly the
successful `QueryInterface` with zero `Release` calls, leaving a net
`+1` on the container's external reference count — a leak contradicting
the claimed (and clearly intended) roll-back. -/
theorem advise_ctor_leak_C2 :
    (Advise_sink_connection.ctor true ⟨some 7, none, none⟩).1 =
      .error (.runtime_error
        "cannot find sink connection point of COM object") ∧
    (Advise_sink_connection.ctor true ⟨some 7, none, none⟩).2 =
      [Event.qiOk 7] ∧
    countAdvises
      (Advise_sink_connection.ctor true ⟨some 7, none, none⟩).2 = 0 ∧
    countReleases 7
      (Advise_sink_connection.ctor true ⟨some 7, none, none⟩).2 = 0 ∧
    netCount 7
      (Advise_sink_connection.ctor true ⟨some 7, none, none⟩).2 = 1 :=
  ⟨rfl, rfl, rfl, rfl, rfl⟩

/-- Claim C7 (confirmed).  For every successfully constructed
`Advise_sink_connection`, the destructor (`src/object.hpp:336`) performs
exactly the sequence `Unadvise` with the stored token, then `Release` of
the connection point, then `Release` of the connection-point container —
the reverse of the acquisition order; running the destructor again on the
cleared state does nothing (idempotence), and on any state whose
connection point is null (as when no token was ever obtained) the
unadvise step is skipped. -/
theorem advise_teardown_C7 (sv : Bool) (env : ConnectionEnv)
    (c : Advise_sink_connection)
    (h : (Advise_sink_connection.ctor sv env).1 = .ok c) :
    (Advise_sink_connection.dtor c).2 =
      [Event.unadvise c.sink_connection_token_,
       Event.release (c.point_.getD 0),
       Event.release (c.point_container_.getD 0)] ∧
    c.point_.isSome = true ∧
    c.point_container_.isSome = true ∧
    Advise_sink_connection.dtor (Advise_sink_connection.dtor c).1 =
      ((Advise_sink_connection.dtor c).1, []) ∧
    (∀ c' : Advise_sink_connection, c'.point_ = none →
      countUnadvises (Advise_sink_connection.dtor c').2 = 0) := by
  have hskip : ∀ c' : Advise_sink_connection, c'.point_ = none →
      countUnadvises (Advise_sink_connection.dtor c').2 = 0 := by
    intro c' hp
    obtain ⟨s, t, pc, pt⟩ := c'
    simp only at hp
    subst hp
    cases pc <;> simp [Advise_sink_connection.dtor, countUnadvises]
  obtain ⟨qc, fp, tk⟩ := env
  cases sv
  · simp [Advise_sink_connection.ctor] at h
  · cases qc with
    | none => simp [Advise_sink_connection.ctor] at h
    | some container =>
      cases fp with
      | none => simp [Advise_sink_connection.ctor] at h
      | some point =>
        cases tk with
        | none => simp [Advise_sink_connection.ctor] at h
        | some token =>
          have h2 : Except.ok
              (Advise_sink_connection.mk true token
                (some container) (some point)) = .ok c := h
          have hc := Except.ok.inj h2
          subst hc
          exact ⟨rfl, rfl, rfl, rfl, hskip⟩

/-- Claim C7 witness: the teardown sequence at a concrete successfully
constructed subscription (container pointer 1, connection point 2,
token 3). -/
theorem advise_teardown_C7_witness :
    (Advise_sink_connection.dtor ⟨true, 3, some 1, some 2⟩).2 =
      [Event.unadvise 3, Event.release 2, Event.release 1] :=
  (advise_teardown_C7 true ⟨some 1, some 2, some 3⟩
    ⟨true, 3, some 1, some 2⟩ rfl).1

/-- Claim C9 counterexample (corrected).  The error-reporting discipline
is not followed by every fallible operation.  The instantiating
`Basic_com_object` constructor (`src/object.hpp:194`) compares the
`CoCreateInstance` status against `S_OK` directly and throws `Win_error`
for every other status: a failed `E_OUTOFMEMORY` is surfaced as a
`Win_error` carrying code `-2147024882` — a different `ComError` value
than the distinct resource-exhausted failure `ComError.bad_alloc`.  And
the `Advise_sink_connection` constructor (`src/object.hpp:350`) surfaces
a failed external status as a plain `std::runtime_error`, from which no
numeric status code is retrievable (`ComError.code` is `none`). -/
theorem error_discipline_C9_counterexample :
    Basic_com_object.create E_OUTOFMEMORY none =
      .error (.win_error "cannot create COM object (error -2147024882)"
        E_OUTOFMEMORY) ∧
    (Advise_sink_connection.ctor true ⟨none, none, none⟩).1 =
      .error (.runtime_error "cannot query interface of COM object") ∧
    ComError.code
      (.runtime_error "cannot query interface of COM object") = none :=
  ⟨rfl, rfl, rfl⟩

/-- Claim C9 as amended (proved).  Fallible operations that route a
failed external status through `throw_if_error`
(`src/exceptions.hpp:53`) surface `E_OUTOFMEMORY` as the distinct
resource-exhausted failure `std::bad_alloc` and every other failed
status as a `Win_error` whose message is the description of the failed
external call followed by ` (error <code>)` and whose numeric status
code is retrievable via `code()`, and a non-failed status throws
nothing; the discipline is not universal, however: the instantiating
`Basic_com_object` constructor surfaces every status other than `S_OK`
— `E_OUTOFMEMORY` included — as `Win_error`, and the
`Advise_sink_connection` constructor surfaces its failures as
`std::runtime_error` with no retrievable numeric code. -/
theorem error_discipline_C9 (err : Int) (message : String) (p : Nat) :
    (FAILED err = true → err = E_OUTOFMEMORY →
      throw_if_error err message = .error .bad_alloc) ∧
    (FAILED err = true → err ≠ E_OUTOFMEMORY →
      throw_if_error err message = .error (mkWinError message err) ∧
      mkWinError message err =
        .win_error (message ++ " (error " ++ toString err ++ ")") err ∧
      ComError.code (mkWinError message err) = some err) ∧
    (FAILED err = false → throw_if_error err message = .ok ()) ∧
    (err ≠ S_OK → Basic_com_object.create err (some p) =
      .error (mkWinError "cannot create COM object" err)) ∧
    Basic_com_object.create E_OUTOFMEMORY (some p) =
      .error (mkWinError "cannot create COM object" E_OUTOFMEMORY) ∧
    (∀ msg, ComError.code (.runtime_error msg) = none) ∧
    (Advise_sink_connection.ctor true ⟨none, none, none⟩).1 =
      .error (.runtime_error "cannot query interface of COM object") := by
  refine ⟨?_, ?_, ?_, ?_, rfl, fun msg => rfl, rfl⟩
  · intro hf he
    subst he
    rfl
  · intro hf he
    exact ⟨by simp [throw_if_error, hf, he], rfl, rfl⟩
  · intro hf
    simp [throw_if_error, hf]
  · intro hs
    simp [Basic_com_object.create, hs]

/-- Claim C9 witness: `throw_if_error` evaluated at a failed generic
status (with the message of its `Standard_marshaler` call site,
`src/object.hpp:391`), at `E_OUTOFMEMORY`, and at a successful status,
and the instantiating `Basic_com_object` constructor evaluated at a
failed generic status. -/
theorem error_discipline_C9_witness :
    throw_if_error (-5) "cannot get standard marshaler" =
      .error (.win_error "cannot get standard marshaler (error -5)" (-5)) ∧
    throw_if_error E_OUTOFMEMORY "m" = .error .bad_alloc ∧
    throw_if_error 7 "m" = .ok () ∧
    Basic_com_object.create (-5) (some 1) =
      .error (.win_error "cannot create COM object (error -5)" (-5)) := by
  have h := error_discipline_C9 (-5) "cannot get standard marshaler" 1
  have h2 := error_discipline_C9 E_OUTOFMEMORY "m" 1
  have h3 := error_discipline_C9 7 "m" 1
  refine ⟨?_, h2.1 (by decide) rfl, h3.2.2.1 (by decide), ?_⟩
  · have hh := h.2.1 (by decide) (by decide)
    rw [hh.1, hh.2.1]
    rfl
  · have hh := h.2.2.2.1 (by decide)
    rw [hh]
    rfl

/-- Claim C6 counterexample (corrected).  On a tag mismatch the accessor
message names only the attempted category, never the actual one: the
message thrown by `as_int8` (`src/wmi.hpp:64`) is the same fixed string
whether the stored discriminator is `CIM_STRING` or `CIM_BOOLEAN`, so it
cannot name the actual category, refuting the claim that the message
names both the attempted and the actual category. -/
theorem value_mismatch_message_C6_counterexample :
    wmi.Value.as_int8
        ⟨⟨0, 0, 0, 0, 0, 0, 0, 0, 0, "", 0⟩, CIM_STRING, 0⟩ =
      .error (.logic_error "cannot get value of VARIANT as int8") ∧
    wmi.Value.as_int8
        ⟨⟨0, 0, 0, 0, 0, 0, 0, 0, 0, "", 0⟩, CIM_BOOLEAN, 0⟩ =
      .error (.logic_error "cannot get value of VARIANT as int8") :=
  ⟨rfl, rfl⟩

/-- Claim C6 as amended (proved).  For every typed value cell, the
accessor whose declared category matches the stored discriminator tag
returns the decoded value; every accessor invoked against a different tag
fails with a `std::logic_error` whose message names the attempted
category (but not the actual one); no implicit coercion between
categories is performed (`src/wmi.hpp:40`–`145`). -/
theorem value_accessors_C6 (v : wmi.Value) :
    (v.type = CIM_STRING → v.as_str = .ok v.data.bstrVal) ∧
    (v.type ≠ CIM_STRING → v.as_str =
      .error (.logic_error "cannot get value of VARIANT as string")) ∧
    (v.type = CIM_STRING → v.as_string = .ok v.data.bstrVal) ∧
    (v.type ≠ CIM_STRING → v.as_string =
      .error (.logic_error "cannot get value of VARIANT as string")) ∧
    (v.type = CIM_STRING → v.as_wstring = .ok v.data.bstrVal) ∧
    (v.type ≠ CIM_STRING → v.as_wstring =
      .error (.logic_error "cannot get value of VARIANT as string")) ∧
    (v.type = CIM_SINT8 → v.as_int8 = .ok v.data.cVal) ∧
    (v.type ≠ CIM_SINT8 → v.as_int8 =
      .error (.logic_error "cannot get value of VARIANT as int8")) ∧
    (v.type = CIM_UINT8 → v.as_uint8 = .ok v.data.bVal) ∧
    (v.type ≠ CIM_UINT8 → v.as_uint8 =
      .error (.logic_error "cannot get value of VARIANT as uint8")) ∧
    (v.type = CIM_SINT16 → v.as_int16 = .ok v.data.iVal) ∧
    (v.type ≠ CIM_SINT16 → v.as_int16 =
      .error (.logic_error "cannot get value of VARIANT as int16")) ∧
    (v.type = CIM_UINT16 → v.as_uint16 = .ok v.data.uiVal) ∧
    (v.type ≠ CIM_UINT16 → v.as_uint16 =
      .error (.logic_error "cannot get value of VARIANT as uint16")) ∧
    (v.type = CIM_SINT32 → v.as_int32 = .ok v.data.intVal) ∧
    (v.type ≠ CIM_SINT32 → v.as_int32 =
      .error (.logic_error "cannot get value of VARIANT as int32")) ∧
    (v.type = CIM_UINT32 → v.as_uint32 = .ok v.data.uintVal) ∧
    (v.type ≠ CIM_UINT32 → v.as_uint32 =
      .error (.logic_error "cannot get value of VARIANT as uint32")) ∧
    (v.type = CIM_SINT64 → v.as_int64 = .ok v.data.llVal) ∧
    (v.type ≠ CIM_SINT64 → v.as_int64 =
      .error (.logic_error "cannot get value of VARIANT as int64")) ∧
    (v.type = CIM_UINT64 → v.as_uint64 = .ok v.data.ullVal) ∧
    (v.type ≠ CIM_UINT64 → v.as_uint64 =
      .error (.logic_error "cannot get value of VARIANT as uint64")) ∧
    (v.type = CIM_BOOLEAN → v.as_bool =
      .ok (v.data.boolVal == VARIANT_TRUE)) ∧
    (v.type ≠ CIM_BOOLEAN → v.as_bool =
      .error (.logic_error "cannot get value of VARIANT as bool")) ∧
    (v.type = CIM_DATETIME → v.as_date = .ok v.data.date) ∧
    (v.type ≠ CIM_DATETIME → v.as_date =
      .error (.logic_error "cannot get value of VARIANT as DATE")) := by
  refine ⟨?_, ?_, ?_, ?_, ?_, ?_, ?_, ?_, ?_, ?_, ?_, ?_, ?_, ?_, ?_, ?_,
    ?_, ?_, ?_, ?_, ?_, ?_, ?_, ?_, ?_, ?_⟩ <;>
  intro hv <;>
  simp [wmi.Value.as_str, wmi.Value.as_string, wmi.Value.as_wstring,
    wmi.Value.as_int8, wmi.Value.as_uint8, wmi.Value.as_int16,
    wmi.Value.as_uint16, wmi.Value.as_int32, wmi.Value.as_uint32,
    wmi.Value.as_int64, wmi.Value.as_uint64, wmi.Value.as_bool,
    wmi.Value.as_date, hv]

/-- Claim C6 witness: on a cell tagged `CIM_SINT32`, the matching
accessor decodes the payload and a mismatched accessor fails with the
message naming the attempted category. -/
theorem value_accessors_C6_witness :
    wmi.Value.as_int32
        ⟨⟨0, 0, 0, 0, 42, 0, 0, 0, 0, "", 0⟩, CIM_SINT32, 0⟩ = .ok 42 ∧
    wmi.Value.as_int8
        ⟨⟨0, 0, 0, 0, 42, 0, 0, 0, 0, "", 0⟩, CIM_SINT32, 0⟩ =
      .error (.logic_error "cannot get value of VARIANT as int8") := by
  obtain ⟨_, _, _, _, _, _, _, h8, _, _, _, _, _, _, h32, _⟩ :=
    value_accessors_C6 ⟨⟨0, 0, 0, 0, 42, 0, 0, 0, 0, "", 0⟩, CIM_SINT32, 0⟩
  exact ⟨h32 rfl, h8 (by decide)⟩

end Wincom
